import Mathlib

/-!
Shallow embedding of `src/agen.py`, a small LangGraph-style requirements
agent: a key-value session memory (`AgentMemory`), six node functions
(`parse_requirements`, `draft_workflow`, `present_workflow`, `confirm_node`,
`update_workflow`, `finalize_json`), a conditional router
(`confirm_router`), the compiled graph traversal, and the chat driver
(`run_chat_agent`).

Python dynamic values are modelled by `Val` (None, strings, booleans and
string-keyed dictionaries).  Dictionaries (both the session memory and the
state threaded between graph nodes) are association lists with
last-write-wins update.  The external Gemini text generator is an oracle
parameter `gen : String → String` for the success path; `gemini_call`
additionally models the response-shape inspection of the helper, with an
API that may raise (`Except`).  Blocking console input is an explicit input
stream (`List String`); a run that would block for more input is `needInput`.
-/

set_option autoImplicit false

namespace JsonAgent

/-- Python runtime values used by this program: `None`, `str`, `bool`,
and string-keyed `dict`. -/
inductive Val where
  | none : Val
  | str : String → Val
  | bool : Bool → Val
  | dict : List (String × Val) → Val
deriving Repr

/-- Both the LangGraph run state and the session memory are Python dicts:
string-keyed association lists, most recent write wins. -/
abbrev PyDict := List (String × Val)

abbrev RunState := PyDict

abbrev AgentMemory := PyDict

/-- Python `d[key]` lookup: `some v` if present, `none` (KeyError) otherwise. -/
def dictLookup : PyDict → String → Option Val
  | [], _ => Option.none
  | (k, v) :: rest, key => if k = key then some v else dictLookup rest key

/-- Python `d[key] = value`: overwrite in place if the key is present,
append otherwise. -/
def dictSet : PyDict → String → Val → PyDict
  | [], key, value => [(key, value)]
  | (k, v) :: rest, key, value =>
    if k = key then (key, value) :: rest else (k, v) :: dictSet rest key value

/-- Python `d.get(key, default)`. -/
def dictGet (d : PyDict) (key : String) (default : Val) : Val :=
  (dictLookup d key).getD default

/-- Method `AgentMemory.remember(key, value)`: `self[key] = value`. -/
def remember (m : AgentMemory) (key : String) (value : Val) : AgentMemory :=
  dictSet m key value

/-- Method `AgentMemory.recall'(key, default=None)`: `self.get(key, default)`. -/
def recall' (m : AgentMemory) (key : String) (default : Val) : Val :=
  dictGet m key default

/-- Python truthiness of a `Val` (used by `if final_json:` and by
`confirm_router`'s `state.get("confirmed")` test). -/
def truthy : Val → Bool
  | Val.none => false
  | Val.str s => !s.isEmpty
  | Val.bool b => b
  | Val.dict d => !d.isEmpty

mutual

/-- Python `repr` of a `Val`, as interpolated into f-string prompts for
dict entries (quote escaping inside strings is not modelled; no prompt in
this program depends on it). -/
def pyRepr : Val → String
  | Val.none => "None"
  | Val.str s => "\x27" ++ s ++ "\x27"
  | Val.bool b => if b then "True" else "False"
  | Val.dict kvs => "\x7b" ++ pyReprEntries kvs ++ "\x7d"

/-- Comma-separated `repr` of dict entries. -/
def pyReprEntries : List (String × Val) → String
  | [] => ""
  | [(k, v)] => "\x27" ++ k ++ "\x27: " ++ pyRepr v
  | (k, v) :: rest => "\x27" ++ k ++ "\x27: " ++ pyRepr v ++ ", " ++ pyReprEntries rest

end

/-- Python `str` of a `Val`, as interpolated into f-strings. -/
def pyStr : Val → String
  | Val.str s => s
  | v => pyRepr v

/-- Python `s.lower()`: per-character lowercasing (every string this
program compares after lowering is ASCII, where `Char.toLower` agrees with
Python's `str.lower`). -/
def pyLower (s : String) : String :=
  String.mk (s.data.map Char.toLower)

/-- Python `s.startswith(p)`. -/
def pyStartsWith (s p : String) : Bool :=
  p.data.isPrefixOf s.data

/-! ## Gemini helpers (`gemini_call` and the three prompt builders) -/

/-- One part of a Gemini response candidate's content. -/
structure Part where
  text : String
deriving Repr

/-- The content of a Gemini response candidate. -/
structure Content where
  parts : List Part
deriving Repr

/-- A Gemini response candidate. -/
structure Candidate where
  content : Content
deriving Repr

/-- A Gemini API response object as `gemini_call` inspects it:
`candidates := Option.none` models an object without a `candidates`
attribute (`hasattr` false); `asString` is Python `str(response)`. -/
structure GenResponse where
  candidates : Option (List Candidate)
  asString : String
deriving Repr

/-- Helper `gemini_call(prompt)`: calls the API (which may raise, modelled by
`Except.error`); if the response has a non-empty `candidates` attribute it
returns `candidates[0].content.parts[0].text` (raising IndexError when
`parts` is empty), otherwise it falls back to `str(response)`. -/
def gemini_call (api : String → Except String GenResponse) (prompt : String) :
    Except String String :=
  match api prompt with
  | Except.error e => Except.error e
  | Except.ok response =>
    match response.candidates with
    | some (c :: _) =>
      match c.content.parts with
      | p :: _ => Except.ok p.text
      | [] => Except.error "IndexError: list index out of range"
    | some [] => Except.ok response.asString
    | Option.none => Except.ok response.asString

/-- Prompt built by `generate_draft_with_gemini`. -/
def generate_draft_prompt (parsed : Val) : String :=
  "\n    User requirements parsed: " ++ pyStr parsed ++
  "\n\n    Create a draft workflow and list of tools needed to build the agent.\n    Do not return JSON yet, just human-readable details.\n    "

/-- Prompt built by `update_workflow_with_gemini`. -/
def update_workflow_prompt (draft : Val) (change_request : Val) : String :=
  "\n    Current draft workflow:\n    " ++ pyStr draft ++
  "\n\n    User requested changes:\n    " ++ pyStr change_request ++
  "\n\n    Update only the necessary parts of the workflow, don\x27t rebuild everything.\n    "

/-- Prompt built by `finalize_json_with_gemini`. -/
def finalize_json_prompt (draft : Val) : String :=
  "\n    Convert the following agent workflow and tools into a clean JSON format:\n\n    " ++
  pyStr draft ++ "\n    "

/-! ## Node functions -/

/-- Node `parse_requirements(state)`: `state["requirements"]` (KeyError → `none`),
builds `parsed = {"goal": user_input}`, remembers both keys, returns the
update `{"parsed": parsed}` together with the new memory. -/
def parse_requirements (state : RunState) (mem : AgentMemory) :
    Option (RunState × AgentMemory) :=
  match dictLookup state "requirements" with
  | Option.none => Option.none
  | some user_input =>
    let parsed := Val.dict [("goal", user_input)]
    let mem1 := remember mem "requirements" user_input
    let mem2 := remember mem1 "parsed" parsed
    some ([("parsed", parsed)], mem2)

/-- Node `draft_workflow(state)`: recalls `parsed`, calls the generator on the
draft prompt, remembers the result as `draft`, returns the update and the
prompt that was sent (for call accounting). -/
def draft_workflow (gen : String → String) (_state : RunState) (mem : AgentMemory) :
    RunState × AgentMemory × String :=
  let parsed := recall' mem "parsed" Val.none
  let prompt := generate_draft_prompt parsed
  let workflow := gen prompt
  ([("draft", Val.str workflow)], remember mem "draft" (Val.str workflow), prompt)

/-- Node `present_workflow(state)`: prints the draft and blocks on `input(...)`;
consumes the next entry of the input stream, returning the update
`{"user_feedback": fb}`; with no input left the program blocks. -/
def present_workflow (_state : RunState) (_mem : AgentMemory) (inputs : List String) :
    Option (RunState × List String) :=
  match inputs with
  | [] => Option.none
  | fb :: rest => some ([("user_feedback", Val.str fb)], rest)

/-- Node `confirm_node(state)`: `feedback = state.get("user_feedback", "")`;
if `feedback.lower().startswith("yes")` remembers and returns
`confirmed = True`, otherwise remembers `confirmed = False` plus the
feedback text and returns both.  A non-string feedback value would raise
(`.lower()` on a non-str), modelled by `Option.none`. -/
def confirm_node (state : RunState) (mem : AgentMemory) :
    Option (RunState × AgentMemory) :=
  match dictGet state "user_feedback" (Val.str "") with
  | Val.str feedback =>
    if pyStartsWith (pyLower feedback) "yes" then
      some ([("confirmed", Val.bool true)], remember mem "confirmed" (Val.bool true))
    else
      let mem1 := remember mem "confirmed" (Val.bool false)
      let mem2 := remember mem1 "user_feedback" (Val.str feedback)
      some ([("confirmed", Val.bool false), ("user_feedback", Val.str feedback)], mem2)
  | _ => Option.none

/-- Node `update_workflow(state)`: recalls `draft` and `user_feedback` from
memory, calls the generator on the update prompt, remembers the revision as
the new `draft`; returns the update, the new memory and the prompt sent. -/
def update_workflow (gen : String → String) (_state : RunState) (mem : AgentMemory) :
    RunState × AgentMemory × String :=
  let draft := recall' mem "draft" Val.none
  let change_request := recall' mem "user_feedback" Val.none
  let prompt := update_workflow_prompt draft change_request
  let updated := gen prompt
  ([("draft", Val.str updated)], remember mem "draft" (Val.str updated), prompt)

/-- Node `finalize_json(state)`: recalls `draft`, calls the generator on the
finalize prompt, remembers the result as `final_json`; returns the update,
the new memory and the prompt sent. -/
def finalize_json (gen : String → String) (_state : RunState) (mem : AgentMemory) :
    RunState × AgentMemory × String :=
  let draft := recall' mem "draft" Val.none
  let prompt := finalize_json_prompt draft
  let final_json := gen prompt
  ([("final_json", Val.str final_json)], remember mem "final_json" (Val.str final_json), prompt)

/-- Router `confirm_router(state)`: `"finalize" if state.get("confirmed") else "update"`. -/
def confirm_router (state : RunState) : String :=
  if truthy (dictGet state "confirmed" Val.none) then "finalize" else "update"

/-! ## Compiled graph traversal (`agent_graph.invoke`) -/

/-- One call to the external text generator, tagged by the helper that made
it, carrying the prompt that was sent. -/
inductive GenCall where
  | draftCall (prompt : String) : GenCall
  | updateCall (prompt : String) : GenCall
  | finalizeCall (prompt : String) : GenCall
deriving Repr, DecidableEq

/-- Outcome of one `agent_graph.invoke(state)`: the graph either reaches
`finalize` and returns the accumulated state (`completed`, with the unread
remainder of the input stream and the generator calls made), blocks at a
`present` prompt with no input left (`needInput`), or raises
(`raised`, e.g. KeyError in `parse_requirements`). -/
inductive GraphOutcome where
  | completed (state : RunState) (mem : AgentMemory) (rest : List String)
      (trace : List GenCall) : GraphOutcome
  | needInput (mem : AgentMemory) (trace : List GenCall) : GraphOutcome
  | raised (mem : AgentMemory) (trace : List GenCall) : GraphOutcome
deriving Repr

/-- LangGraph merging of a node's returned update dict into the running
state: each returned key overwrites the state's entry. -/
def mergeUpdate (state : RunState) : RunState → RunState
  | [] => state
  | (k, v) :: rest => mergeUpdate (dictSet state k v) rest

/-- The `present → confirm → (finalize | update → present → …)` cycle of
the compiled graph, from the `present` node onward, consuming one input
per `present`. -/
def graph_loop (gen : String → String) (state : RunState) (mem : AgentMemory) :
    List String → List GenCall → GraphOutcome
  | [], trace => GraphOutcome.needInput mem trace
  | fb :: rest, trace =>
    let state1 := mergeUpdate state [("user_feedback", Val.str fb)]
    match confirm_node state1 mem with
    | Option.none => GraphOutcome.raised mem trace
    | some (updC, mem1) =>
      let state2 := mergeUpdate state1 updC
      if confirm_router state2 = "finalize" then
        let (updF, mem2, prompt) := finalize_json gen state2 mem1
        GraphOutcome.completed (mergeUpdate state2 updF) mem2 rest
          (trace ++ [GenCall.finalizeCall prompt])
      else
        let (updU, mem2, prompt) := update_workflow gen state2 mem1
        graph_loop gen (mergeUpdate state2 updU) mem2 rest
          (trace ++ [GenCall.updateCall prompt])

/-- Traversal `agent_graph.invoke(state)`: entry point `parse`, then `draft`, then
the `present`/`confirm` cycle of `graph_loop`. -/
def agent_graph_invoke (gen : String → String) (state : RunState)
    (mem : AgentMemory) (inputs : List String) : GraphOutcome :=
  match parse_requirements state mem with
  | Option.none => GraphOutcome.raised mem []
  | some (updP, mem1) =>
    let state1 := mergeUpdate state updP
    let (updD, mem2, dprompt) := draft_workflow gen state1 mem1
    let state2 := mergeUpdate state1 updD
    graph_loop gen state2 mem2 inputs [GenCall.draftCall dprompt]

/-! ## Chat driver (`run_chat_agent`) -/

/-- How a run of `run_chat_agent` ends.  `exitAtStart`: the user typed
`exit` at the requirements prompt.  `finished`: a truthy `final_json` was
printed.  `exitGoodbye`: the driver's exit-during-feedback branch fired.
`blockedForInput`: the program is blocked reading console input not in the
stream.  `raisedError`: an uncaught exception.  `outOfFuel`: the bounded
model ran out of driver-loop iterations (never hit when the fuel exceeds
the number of graph invocations, each of which consumes input). -/
inductive DriverOutcome where
  | exitAtStart : DriverOutcome
  | finished (final_json : String) : DriverOutcome
  | exitGoodbye : DriverOutcome
  | blockedForInput : DriverOutcome
  | raisedError : DriverOutcome
  | outOfFuel : DriverOutcome
deriving Repr, DecidableEq

/-- The driver's `while True` loop: invoke the graph, print and stop when
`memory.recall("final_json")` is truthy, otherwise stop with the goodbye
message when the returned state's `user_feedback` lowercases to `"exit"`,
otherwise invoke again on the returned state. -/
def chat_loop (gen : String → String) :
    Nat → RunState → AgentMemory → List String → List GenCall →
    DriverOutcome × AgentMemory × List GenCall
  | 0, _, mem, _, trace => (DriverOutcome.outOfFuel, mem, trace)
  | Nat.succ fuel, state, mem, inputs, trace =>
    match agent_graph_invoke gen state mem inputs with
    | GraphOutcome.raised mem1 tr => (DriverOutcome.raisedError, mem1, trace ++ tr)
    | GraphOutcome.needInput mem1 tr => (DriverOutcome.blockedForInput, mem1, trace ++ tr)
    | GraphOutcome.completed state1 mem1 rest tr =>
      let trace1 := trace ++ tr
      let final_json := recall' mem1 "final_json" Val.none
      if truthy final_json then
        (DriverOutcome.finished (pyStr final_json), mem1, trace1)
      else
        match dictGet state1 "user_feedback" (Val.str "") with
        | Val.str fb =>
          if pyLower fb = "exit" then (DriverOutcome.exitGoodbye, mem1, trace1)
          else chat_loop gen fuel state1 mem1 rest trace1
        | _ => (DriverOutcome.raisedError, mem1, trace1)

/-- Driver `run_chat_agent()`: reads the requirements; returns immediately if they
lowercase to `"exit"`; otherwise seeds the state and runs the driver loop
(fuel `inputs.length + 1` covers every possible number of iterations, since
each graph invocation that completes has consumed at least one input). -/
def run_chat_agent (gen : String → String) (user_req : String)
    (inputs : List String) : DriverOutcome × AgentMemory × List GenCall :=
  if pyLower user_req = "exit" then (DriverOutcome.exitAtStart, [], [])
  else
    chat_loop gen (inputs.length + 1) [("requirements", Val.str user_req)] [] inputs []

/-- Number of draft-generation calls in a trace. -/
def countDraft (trace : List GenCall) : Nat :=
  trace.countP fun c => match c with | GenCall.draftCall _ => true | _ => false

/-- Number of update calls in a trace. -/
def countUpdate (trace : List GenCall) : Nat :=
  trace.countP fun c => match c with | GenCall.updateCall _ => true | _ => false

/-- Number of finalize calls in a trace. -/
def countFinalize (trace : List GenCall) : Nat :=
  trace.countP fun c => match c with | GenCall.finalizeCall _ => true | _ => false

/-! ## Dictionary lemmas -/

theorem dictLookup_dictSet_self (d : PyDict) (k : String) (v : Val) :
    dictLookup (dictSet d k v) k = some v := by
  induction d with
  | nil => simp [dictSet, dictLookup]
  | cons hd tl ih =>
    obtain ⟨k0, v0⟩ := hd
    by_cases hk : k0 = k
    · simp [dictSet, hk, dictLookup]
    · simp [dictSet, hk, dictLookup, ih]

theorem dictLookup_dictSet_ne (d : PyDict) (k k' : String) (v : Val) (h : k' ≠ k) :
    dictLookup (dictSet d k v) k' = dictLookup d k' := by
  induction d with
  | nil => simp [dictSet, dictLookup, Ne.symm h]
  | cons hd tl ih =>
    obtain ⟨k0, v0⟩ := hd
    by_cases hk : k0 = k
    · subst hk
      simp [dictSet, dictLookup, Ne.symm h]
    · simp [dictSet, hk, dictLookup, ih]

theorem recall'_remember_self (m : AgentMemory) (k : String) (v d : Val) :
    recall' (remember m k v) k d = v := by
  simp [recall', dictGet, remember, dictLookup_dictSet_self]

theorem recall'_remember_ne (m : AgentMemory) (k k' : String) (v d : Val) (h : k' ≠ k) :
    recall' (remember m k v) k' d = recall' m k' d := by
  simp [recall', dictGet, remember, dictLookup_dictSet_ne _ _ _ _ h]

theorem mergeUpdate_one (st : RunState) (k : String) (v : Val) :
    mergeUpdate st [(k, v)] = dictSet st k v := rfl

theorem mergeUpdate_two (st : RunState) (k1 k2 : String) (v1 v2 : Val) :
    mergeUpdate st [(k1, v1), (k2, v2)] = dictSet (dictSet st k1 v1) k2 v2 := rfl

/-! ## Claim theorems -/

/-- C8: `remember(key, value)` inserts the key if absent and overwrites the
stored value if present (leaving every other key unchanged), and
`recall(key, default)` returns the stored value when the key is present and
the given default when it is absent; hence `recall(k, d)` after
`remember(k, v)` returns `v`, and `recall` on a never-stored key returns
`d`. -/
theorem remember_recall_contract :
    (∀ (m : AgentMemory) (k : String) (v : Val),
      dictLookup (remember m k v) k = some v) ∧
    (∀ (m : AgentMemory) (k k' : String) (v : Val), k' ≠ k →
      dictLookup (remember m k v) k' = dictLookup m k') ∧
    (∀ (m : AgentMemory) (k : String) (v d : Val),
      dictLookup m k = some v → recall' m k d = v) ∧
    (∀ (m : AgentMemory) (k : String) (d : Val),
      dictLookup m k = Option.none → recall' m k d = d) ∧
    (∀ (m : AgentMemory) (k : String) (v d : Val),
      recall' (remember m k v) k d = v) := by
  refine ⟨fun m k v => dictLookup_dictSet_self m k v,
    fun m k k' v h => dictLookup_dictSet_ne m k k' v h,
    fun m k v d h => ?_, fun m k d h => ?_,
    fun m k v d => recall'_remember_self m k v d⟩
  · simp [recall', dictGet, h]
  · simp [recall', dictGet, h]

/-- C8 witness: remember then recall on a concrete memory. -/
theorem remember_recall_contract_witness :
    dictLookup (remember [("a", Val.str "old")] "a" (Val.str "new")) "a"
      = some (Val.str "new") ∧
    recall' [("a", Val.str "x")] "b" (Val.str "dflt") = Val.str "dflt" := by
  refine ⟨remember_recall_contract.1 [("a", Val.str "old")] "a" (Val.str "new"), ?_⟩
  exact remember_recall_contract.2.2.2.1 [("a", Val.str "x")] "b" (Val.str "dflt") rfl

/-- C6: on every state whose `requirements` key holds a non-empty string,
`parse_requirements` returns the update `{parsed: {goal: requirements}}`
and stores both the raw text under `requirements` and the `{goal: text}`
mapping under `parsed` into session memory. -/
theorem parse_requirements_spec (req : String) (st : RunState) (mem : AgentMemory)
    (_hne : req ≠ "")
    (h : dictLookup st "requirements" = some (Val.str req)) :
    parse_requirements st mem =
      some ([("parsed", Val.dict [("goal", Val.str req)])],
        remember (remember mem "requirements" (Val.str req)) "parsed"
          (Val.dict [("goal", Val.str req)])) ∧
    recall' (remember (remember mem "requirements" (Val.str req)) "parsed"
        (Val.dict [("goal", Val.str req)])) "requirements" Val.none = Val.str req ∧
    recall' (remember (remember mem "requirements" (Val.str req)) "parsed"
        (Val.dict [("goal", Val.str req)])) "parsed" Val.none =
      Val.dict [("goal", Val.str req)] := by
  refine ⟨by simp [parse_requirements, h], ?_, ?_⟩
  · rw [recall'_remember_ne _ _ _ _ _ (by decide), recall'_remember_self]
  · rw [recall'_remember_self]

/-- C6 witness: parsing the concrete requirements string `"r"`. -/
theorem parse_requirements_spec_witness :
    parse_requirements [("requirements", Val.str "r")] [] =
      some ([("parsed", Val.dict [("goal", Val.str "r")])],
        [("requirements", Val.str "r"), ("parsed", Val.dict [("goal", Val.str "r")])]) :=
  (parse_requirements_spec "r" [("requirements", Val.str "r")] []
    (by decide) (by simp [dictLookup])).1

/-- C1: on every state whose `user_feedback` key holds the string `fb`,
`confirm_node` sets `confirmed = true` in its returned update and in
session memory exactly when `fb` lowercased starts with `"yes"`; otherwise
it sets `confirmed = false` and stores the exact feedback text into memory
as the pending feedback. -/
theorem confirm_node_spec (fb : String) (st : RunState) (mem : AgentMemory)
    (h : dictLookup st "user_feedback" = some (Val.str fb)) :
    (pyStartsWith (pyLower fb) "yes" = true →
      confirm_node st mem =
        some ([("confirmed", Val.bool true)], remember mem "confirmed" (Val.bool true)) ∧
      recall' (remember mem "confirmed" (Val.bool true)) "confirmed" Val.none =
        Val.bool true) ∧
    (pyStartsWith (pyLower fb) "yes" = false →
      confirm_node st mem =
        some ([("confirmed", Val.bool false), ("user_feedback", Val.str fb)],
          remember (remember mem "confirmed" (Val.bool false)) "user_feedback"
            (Val.str fb)) ∧
      recall' (remember (remember mem "confirmed" (Val.bool false)) "user_feedback"
          (Val.str fb)) "confirmed" Val.none = Val.bool false ∧
      recall' (remember (remember mem "confirmed" (Val.bool false)) "user_feedback"
          (Val.str fb)) "user_feedback" Val.none = Val.str fb) := by
  constructor
  · intro hyes
    refine ⟨by simp [confirm_node, dictGet, h, hyes], recall'_remember_self _ _ _ _⟩
  · intro hno
    refine ⟨by simp [confirm_node, dictGet, h, hno], ?_, recall'_remember_self _ _ _ _⟩
    rw [recall'_remember_ne _ _ _ _ _ (by decide), recall'_remember_self]

/-- C1 witness: feedback `"Yes please"` confirms; feedback
`"change the tool list"` does not and is stored verbatim. -/
theorem confirm_node_spec_witness :
    confirm_node [("user_feedback", Val.str "Yes please")] [] =
      some ([("confirmed", Val.bool true)], [("confirmed", Val.bool true)]) ∧
    confirm_node [("user_feedback", Val.str "change the tool list")] [] =
      some ([("confirmed", Val.bool false),
             ("user_feedback", Val.str "change the tool list")],
        [("confirmed", Val.bool false),
         ("user_feedback", Val.str "change the tool list")]) := by
  constructor
  · exact ((confirm_node_spec "Yes please" [("user_feedback", Val.str "Yes please")] []
      (by simp [dictLookup])).1 (by decide)).1
  · exact ((confirm_node_spec "change the tool list"
      [("user_feedback", Val.str "change the tool list")] []
      (by simp [dictLookup])).2 (by decide)).1

/-- C9: on every state lacking the `user_feedback` key, `confirm_node` does
not fail: it treats the feedback as the empty string, sets
`confirmed = false`, stores the empty string as the pending feedback, and
`confirm_router` on the merged state routes to `update`. -/
theorem confirm_node_missing_feedback (st : RunState) (mem : AgentMemory)
    (h : dictLookup st "user_feedback" = Option.none) :
    confirm_node st mem =
      some ([("confirmed", Val.bool false), ("user_feedback", Val.str "")],
        remember (remember mem "confirmed" (Val.bool false)) "user_feedback"
          (Val.str "")) ∧
    recall' (remember (remember mem "confirmed" (Val.bool false)) "user_feedback"
        (Val.str "")) "user_feedback" Val.none = Val.str "" ∧
    confirm_router
      (mergeUpdate st [("confirmed", Val.bool false), ("user_feedback", Val.str "")]) =
      "update" := by
  refine ⟨by simp [confirm_node, dictGet, h]; decide, recall'_remember_self _ _ _ _, ?_⟩
  rw [confirm_router, mergeUpdate_two, dictGet,
    dictLookup_dictSet_ne _ _ _ _ (by decide), dictLookup_dictSet_self]
  decide

/-- C9 witness: the empty state confirms nothing and routes to `update`. -/
theorem confirm_node_missing_feedback_witness :
    confirm_node [] [] =
      some ([("confirmed", Val.bool false), ("user_feedback", Val.str "")],
        [("confirmed", Val.bool false), ("user_feedback", Val.str "")]) ∧
    confirm_router
      (mergeUpdate [] [("confirmed", Val.bool false), ("user_feedback", Val.str "")]) =
      "update" := by
  have h := confirm_node_missing_feedback [] [] (by simp [dictLookup])
  exact ⟨h.1, h.2.2⟩

/-- C10: on every state whose `user_feedback` lowercased starts with
`"yes"`, `confirm_node` writes only the `confirmed` key into session
memory: its update dict is exactly `{confirmed: true}`, the new memory is
`remember mem "confirmed" true`, and every key other than `confirmed`
(in particular `draft`, `requirements`, `parsed`, `user_feedback`,
`final_json`) recalls exactly as before. -/
theorem confirm_node_yes_frame (fb : String) (st : RunState) (mem : AgentMemory)
    (h : dictLookup st "user_feedback" = some (Val.str fb))
    (hyes : pyStartsWith (pyLower fb) "yes" = true) :
    confirm_node st mem =
      some ([("confirmed", Val.bool true)], remember mem "confirmed" (Val.bool true)) ∧
    (∀ (k : String) (d : Val), k ≠ "confirmed" →
      recall' (remember mem "confirmed" (Val.bool true)) k d = recall' mem k d) := by
  refine ⟨by simp [confirm_node, dictGet, h, hyes], ?_⟩
  intro k d hk
  exact recall'_remember_ne _ _ _ _ _ hk

/-- C10 witness: confirming feedback leaves the `draft` key untouched. -/
theorem confirm_node_yes_frame_witness :
    confirm_node [("user_feedback", Val.str "yes")] [("draft", Val.str "d")] =
      some ([("confirmed", Val.bool true)],
        [("draft", Val.str "d"), ("confirmed", Val.bool true)]) ∧
    recall' [("draft", Val.str "d"), ("confirmed", Val.bool true)] "draft" Val.none =
      Val.str "d" := by
  have h := confirm_node_yes_frame "yes" [("user_feedback", Val.str "yes")]
    [("draft", Val.str "d")] (by simp [dictLookup]) (by decide)
  exact ⟨h.1, h.2 "draft" Val.none (by decide)⟩

/-- Whether a graph traversal ended blocked at a `present` input prompt. -/
def isNeedInput : GraphOutcome → Bool
  | GraphOutcome.needInput _ _ => true
  | _ => false

/-- The session memory carried by a graph outcome. -/
def memOf : GraphOutcome → AgentMemory
  | GraphOutcome.completed _ m _ _ => m
  | GraphOutcome.needInput m _ => m
  | GraphOutcome.raised m _ => m

/-- The generator-call trace carried by a graph outcome. -/
def traceOf : GraphOutcome → List GenCall
  | GraphOutcome.completed _ _ _ t => t
  | GraphOutcome.needInput _ t => t
  | GraphOutcome.raised _ t => t

/-- Whether a generator call is a finalize call. -/
def isFinalizeCall : GenCall → Bool
  | GenCall.finalizeCall _ => true
  | _ => false

/-- An input stream of non-confirming feedback keeps `graph_loop` in the
`update` cycle: it ends blocked for more input, leaves memory's
`final_json` exactly as it was, and adds only update calls to the trace. -/
theorem graph_loop_all_nonconfirm (gen : String → String) :
    ∀ (inputs : List String) (st : RunState) (mem : AgentMemory)
      (trace : List GenCall),
    (∀ fb ∈ inputs, pyStartsWith (pyLower fb) "yes" = false) →
    isNeedInput (graph_loop gen st mem inputs trace) = true ∧
    recall' (memOf (graph_loop gen st mem inputs trace)) "final_json" Val.none =
      recall' mem "final_json" Val.none ∧
    (∀ c ∈ traceOf (graph_loop gen st mem inputs trace),
      c ∈ trace ∨ ∃ p, c = GenCall.updateCall p) := by
  intro inputs
  induction inputs with
  | nil =>
    intro st mem trace _
    exact ⟨rfl, rfl, fun c hc => Or.inl hc⟩
  | cons fb rest ih =>
    intro st mem trace hin
    have hfb : pyStartsWith (pyLower fb) "yes" = false :=
      hin fb (List.mem_cons_self _ _)
    have hrest : ∀ f ∈ rest, pyStartsWith (pyLower f) "yes" = false :=
      fun f hf => hin f (List.mem_cons_of_mem _ hf)
    have hcn : confirm_node (mergeUpdate st [("user_feedback", Val.str fb)]) mem =
        some ([("confirmed", Val.bool false), ("user_feedback", Val.str fb)],
          remember (remember mem "confirmed" (Val.bool false)) "user_feedback"
            (Val.str fb)) := by
      simp [confirm_node, dictGet, mergeUpdate_one, dictLookup_dictSet_self, hfb]
    have hrouter : confirm_router
        (mergeUpdate (mergeUpdate st [("user_feedback", Val.str fb)])
          [("confirmed", Val.bool false), ("user_feedback", Val.str fb)]) =
        "update" := by
      rw [confirm_router, mergeUpdate_two, dictGet,
        dictLookup_dictSet_ne _ _ _ _ (by decide), dictLookup_dictSet_self]
      rfl
    simp only [graph_loop, hcn, hrouter, update_workflow]
    rw [if_neg (by decide : ¬ ("update" : String) = "finalize")]
    refine ⟨(ih _ _ _ hrest).1, ?_, ?_⟩
    · rw [(ih _ _ _ hrest).2.1, recall'_remember_ne _ _ _ _ _ (by decide),
        recall'_remember_ne _ _ _ _ _ (by decide),
        recall'_remember_ne _ _ _ _ _ (by decide)]
    · intro c hc
      rcases (ih _ _ _ hrest).2.2 c hc with h | h
      · rcases List.mem_append.mp h with h | h
        · exact Or.inl h
        · exact Or.inr ⟨_, List.mem_singleton.mp h⟩
      · exact Or.inr h

/-- C3: for every input stream in which the user always replies with a
non-confirming string (one whose lowercase form does not start with
`"yes"`), the state machine never reaches `finalize`: the traversal ends
blocked at a `present` prompt, its trace contains no finalize call (every
present → confirm traversal routed to `update`), and `final_json` is never
set in memory. -/
theorem never_finalize_while_nonconfirm (gen : String → String) (req : String)
    (inputs : List String)
    (hin : ∀ fb ∈ inputs, pyStartsWith (pyLower fb) "yes" = false) :
    isNeedInput (agent_graph_invoke gen [("requirements", Val.str req)] [] inputs)
      = true ∧
    (∀ c ∈ traceOf (agent_graph_invoke gen [("requirements", Val.str req)] [] inputs),
      isFinalizeCall c = false) ∧
    recall' (memOf (agent_graph_invoke gen [("requirements", Val.str req)] [] inputs))
      "final_json" Val.none = Val.none := by
  have hparse : parse_requirements [("requirements", Val.str req)] [] =
      some ([("parsed", Val.dict [("goal", Val.str req)])],
        [("requirements", Val.str req), ("parsed", Val.dict [("goal", Val.str req)])]) := by
    simp [parse_requirements, remember, dictSet, dictLookup]
  simp only [agent_graph_invoke, hparse, draft_workflow]
  refine ⟨(graph_loop_all_nonconfirm gen inputs _ _ _ hin).1, ?_, ?_⟩
  · intro c hc
    rcases (graph_loop_all_nonconfirm gen inputs _ _ _ hin).2.2 c hc with h | ⟨p, hp⟩
    · rw [List.mem_singleton.mp h]
      rfl
    · rw [hp]
      rfl
  · rw [(graph_loop_all_nonconfirm gen inputs _ _ _ hin).2.1,
      recall'_remember_ne _ _ _ _ _ (by decide)]
    rfl

/-- C3 witness: two rounds of non-confirming feedback leave the run blocked
for more input with no finalize call made. -/
theorem never_finalize_while_nonconfirm_witness :
    isNeedInput (agent_graph_invoke (fun _ => "draft-text")
      [("requirements", Val.str "r")] [] ["no", "add retries"]) = true ∧
    recall' (memOf (agent_graph_invoke (fun _ => "draft-text")
      [("requirements", Val.str "r")] [] ["no", "add retries"]))
      "final_json" Val.none = Val.none := by
  have h := never_finalize_while_nonconfirm (fun _ => "draft-text") "r"
    ["no", "add retries"] (by decide)
  exact ⟨h.1, h.2.2⟩

/-- Unfolding of one driver-loop iteration (`fuel + 1` form, for rewriting). -/
theorem chat_loop_succ (gen : String → String) (fuel : Nat) (state : RunState)
    (mem : AgentMemory) (inputs : List String) (trace : List GenCall) :
    chat_loop gen (fuel + 1) state mem inputs trace =
      match agent_graph_invoke gen state mem inputs with
      | GraphOutcome.raised mem1 tr => (DriverOutcome.raisedError, mem1, trace ++ tr)
      | GraphOutcome.needInput mem1 tr =>
        (DriverOutcome.blockedForInput, mem1, trace ++ tr)
      | GraphOutcome.completed state1 mem1 rest tr =>
        let trace1 := trace ++ tr
        let final_json := recall' mem1 "final_json" Val.none
        if truthy final_json then
          (DriverOutcome.finished (pyStr final_json), mem1, trace1)
        else
          match dictGet state1 "user_feedback" (Val.str "") with
          | Val.str fb =>
            if pyLower fb = "exit" then (DriverOutcome.exitGoodbye, mem1, trace1)
            else chat_loop gen fuel state1 mem1 rest trace1
          | _ => (DriverOutcome.raisedError, mem1, trace1) := rfl

/-- The graph traversal for requirements `"build a web scraper"` and the
single confirming reply `"yes"`: one draft call, then finalize. -/
theorem invoke_scraper_yes (gen : String → String) :
    agent_graph_invoke gen
      [("requirements", Val.str "build a web scraper")] [] ["yes"] =
    GraphOutcome.completed
      [("requirements", Val.str "build a web scraper"),
       ("parsed", Val.dict [("goal", Val.str "build a web scraper")]),
       ("draft", Val.str (gen (generate_draft_prompt
         (Val.dict [("goal", Val.str "build a web scraper")])))),
       ("user_feedback", Val.str "yes"),
       ("confirmed", Val.bool true),
       ("final_json", Val.str (gen (finalize_json_prompt (Val.str (gen
         (generate_draft_prompt
           (Val.dict [("goal", Val.str "build a web scraper")])))))))]
      [("requirements", Val.str "build a web scraper"),
       ("parsed", Val.dict [("goal", Val.str "build a web scraper")]),
       ("draft", Val.str (gen (generate_draft_prompt
         (Val.dict [("goal", Val.str "build a web scraper")])))),
       ("confirmed", Val.bool true),
       ("final_json", Val.str (gen (finalize_json_prompt (Val.str (gen
         (generate_draft_prompt
           (Val.dict [("goal", Val.str "build a web scraper")])))))))]
      []
      [GenCall.draftCall (generate_draft_prompt
         (Val.dict [("goal", Val.str "build a web scraper")])),
       GenCall.finalizeCall (finalize_json_prompt (Val.str (gen
         (generate_draft_prompt
           (Val.dict [("goal", Val.str "build a web scraper")])))))] := by
  have hyes : pyStartsWith (pyLower "yes") "yes" = true := by decide
  simp [agent_graph_invoke, parse_requirements, draft_workflow, graph_loop,
    confirm_node, confirm_router, finalize_json, mergeUpdate, dictSet, dictGet,
    dictLookup, remember, recall', truthy, pyStr, hyes]

/-- C4: with requirements `"build a web scraper"` and the user replying
`"yes"` at the first presentation, the driver makes exactly one
draft-generation call, zero update calls and one finalize call, and the run
terminates having stored a non-empty final artifact as `final_json`
(non-empty provided the external generator returns non-empty completions,
the only content assumption the scenario makes about the oracle). -/
theorem scenario_confirm_first (gen : String → String) (h : ∀ p, gen p ≠ "") :
    ∃ fj : String,
      (run_chat_agent gen "build a web scraper" ["yes"]).1 =
        DriverOutcome.finished fj ∧
      fj ≠ "" ∧
      countDraft (run_chat_agent gen "build a web scraper" ["yes"]).2.2 = 1 ∧
      countUpdate (run_chat_agent gen "build a web scraper" ["yes"]).2.2 = 0 ∧
      countFinalize (run_chat_agent gen "build a web scraper" ["yes"]).2.2 = 1 ∧
      recall' (run_chat_agent gen "build a web scraper" ["yes"]).2.1
        "final_json" Val.none = Val.str fj := by
  have hfe : ∀ p, (gen p).isEmpty = false := by
    intro p
    cases hq : (gen p).isEmpty
    · rfl
    · exact absurd ((String.isEmpty_iff _).mp hq) (h p)
  have h2 : run_chat_agent gen "build a web scraper" ["yes"] =
      chat_loop gen (1 + 1) [("requirements", Val.str "build a web scraper")]
        [] ["yes"] [] := by
    rw [run_chat_agent, if_neg (by decide)]
    rfl
  have hrun : run_chat_agent gen "build a web scraper" ["yes"] =
      (DriverOutcome.finished (gen (finalize_json_prompt (Val.str (gen
          (generate_draft_prompt
            (Val.dict [("goal", Val.str "build a web scraper")])))))),
       [("requirements", Val.str "build a web scraper"),
        ("parsed", Val.dict [("goal", Val.str "build a web scraper")]),
        ("draft", Val.str (gen (generate_draft_prompt
          (Val.dict [("goal", Val.str "build a web scraper")])))),
        ("confirmed", Val.bool true),
        ("final_json", Val.str (gen (finalize_json_prompt (Val.str (gen
          (generate_draft_prompt
            (Val.dict [("goal", Val.str "build a web scraper")])))))))],
       [GenCall.draftCall (generate_draft_prompt
          (Val.dict [("goal", Val.str "build a web scraper")])),
        GenCall.finalizeCall (finalize_json_prompt (Val.str (gen
          (generate_draft_prompt
            (Val.dict [("goal", Val.str "build a web scraper")])))))]) := by
    rw [h2, chat_loop_succ, invoke_scraper_yes]
    simp [recall', dictGet, dictLookup, truthy, pyStr, hfe]
  refine ⟨gen (finalize_json_prompt (Val.str (gen (generate_draft_prompt
    (Val.dict [("goal", Val.str "build a web scraper")]))))),
    ?_, h _, ?_, ?_, ?_, ?_⟩
  · rw [hrun]
  · rw [hrun]
    rfl
  · rw [hrun]
    rfl
  · rw [hrun]
    rfl
  · rw [hrun]
    simp [recall', dictGet, dictLookup]

/-- C4 witness: a concrete generator that returns a fixed non-empty
completion. -/
theorem scenario_confirm_first_witness :
    ∃ fj : String,
      (run_chat_agent (fun _ => "output") "build a web scraper" ["yes"]).1 =
        DriverOutcome.finished fj ∧
      fj ≠ "" ∧
      countDraft
        (run_chat_agent (fun _ => "output") "build a web scraper" ["yes"]).2.2 = 1 ∧
      countUpdate
        (run_chat_agent (fun _ => "output") "build a web scraper" ["yes"]).2.2 = 0 ∧
      countFinalize
        (run_chat_agent (fun _ => "output") "build a web scraper" ["yes"]).2.2 = 1 ∧
      recall' (run_chat_agent (fun _ => "output") "build a web scraper" ["yes"]).2.1
        "final_json" Val.none = Val.str fj :=
  scenario_confirm_first (fun _ => "output")
    (by intro p; exact (by decide : ("output" : String) ≠ ""))

/-- C7: if the user's very first requirements input lowercases to
`"exit"`, the driver terminates immediately without invoking the state
machine: the trace is empty (zero TextGenerator calls) and memory is empty
(no final artifact). -/
theorem exit_at_requirements_prompt (gen : String → String) (req : String)
    (inputs : List String) (h : pyLower req = "exit") :
    run_chat_agent gen req inputs = (DriverOutcome.exitAtStart, [], []) ∧
    (run_chat_agent gen req inputs).2.2.length = 0 ∧
    recall' (run_chat_agent gen req inputs).2.1 "final_json" Val.none = Val.none := by
  have heq : run_chat_agent gen req inputs = (DriverOutcome.exitAtStart, [], []) := by
    rw [run_chat_agent, if_pos h]
  refine ⟨heq, by rw [heq]; rfl, by rw [heq]; rfl⟩

/-- C7 witness: typing `"exit"` at the requirements prompt. -/
theorem exit_at_requirements_prompt_witness :
    run_chat_agent (fun _ => "output") "exit" [] =
      (DriverOutcome.exitAtStart, [], []) :=
  (exit_at_requirements_prompt (fun _ => "output") "exit" [] (by decide)).1

/-- The graph traversal for requirements `"build a web scraper"` when the
user types `"exit"` at the first presentation: the feedback is treated as a
change request, an update call is made, and the graph re-presents (blocking
for more input). -/
theorem invoke_scraper_exit (gen : String → String) :
    agent_graph_invoke gen
      [("requirements", Val.str "build a web scraper")] [] ["exit"] =
    GraphOutcome.needInput
      [("requirements", Val.str "build a web scraper"),
       ("parsed", Val.dict [("goal", Val.str "build a web scraper")]),
       ("draft", Val.str (gen (update_workflow_prompt
         (Val.str (gen (generate_draft_prompt
           (Val.dict [("goal", Val.str "build a web scraper")]))))
         (Val.str "exit")))),
       ("confirmed", Val.bool false),
       ("user_feedback", Val.str "exit")]
      [GenCall.draftCall (generate_draft_prompt
         (Val.dict [("goal", Val.str "build a web scraper")])),
       GenCall.updateCall (update_workflow_prompt
         (Val.str (gen (generate_draft_prompt
           (Val.dict [("goal", Val.str "build a web scraper")]))))
         (Val.str "exit"))] := by
  have hexit : pyStartsWith (pyLower "exit") "yes" = false := by decide
  simp [agent_graph_invoke, parse_requirements, draft_workflow, graph_loop,
    confirm_node, confirm_router, update_workflow, mergeUpdate, dictSet, dictGet,
    dictLookup, remember, recall', truthy, pyStr, hexit]

/-- C2 evaluated at the failing input: with requirements
`"build a web scraper"` and the user typing `"exit"` at the first
feedback prompt, the run does not stop — the driver's exit branch is never
reached.  The feedback is treated as a change request: one update
TextGenerator call is made, no final artifact exists, and the program
blocks asking for further feedback. -/
theorem exit_feedback_does_not_stop (gen : String → String) :
    (run_chat_agent gen "build a web scraper" ["exit"]).1 =
      DriverOutcome.blockedForInput ∧
    (run_chat_agent gen "build a web scraper" ["exit"]).1 ≠
      DriverOutcome.exitGoodbye ∧
    countUpdate (run_chat_agent gen "build a web scraper" ["exit"]).2.2 = 1 ∧
    recall' (run_chat_agent gen "build a web scraper" ["exit"]).2.1
      "final_json" Val.none = Val.none := by
  have h2 : run_chat_agent gen "build a web scraper" ["exit"] =
      chat_loop gen (1 + 1) [("requirements", Val.str "build a web scraper")]
        [] ["exit"] [] := by
    rw [run_chat_agent, if_neg (by decide)]
    rfl
  have hrun : run_chat_agent gen "build a web scraper" ["exit"] =
      (DriverOutcome.blockedForInput,
       [("requirements", Val.str "build a web scraper"),
        ("parsed", Val.dict [("goal", Val.str "build a web scraper")]),
        ("draft", Val.str (gen (update_workflow_prompt
          (Val.str (gen (generate_draft_prompt
            (Val.dict [("goal", Val.str "build a web scraper")]))))
          (Val.str "exit")))),
        ("confirmed", Val.bool false),
        ("user_feedback", Val.str "exit")],
       [GenCall.draftCall (generate_draft_prompt
          (Val.dict [("goal", Val.str "build a web scraper")])),
        GenCall.updateCall (update_workflow_prompt
          (Val.str (gen (generate_draft_prompt
            (Val.dict [("goal", Val.str "build a web scraper")]))))
          (Val.str "exit"))]) := by
    rw [h2, chat_loop_succ, invoke_scraper_exit]
    rfl
  refine ⟨by rw [hrun], by rw [hrun]; simp, by rw [hrun]; rfl, ?_⟩
  rw [hrun]
  simp [recall', dictGet, dictLookup]

/-- C5 counterexample: a malformed TextGenerator response — here one whose
`candidates` list is empty — does not propagate a failure out of
`gemini_call`: the helper substitutes the fallback value `str(response)`
and returns it as a normal result. -/
theorem gemini_call_malformed_fallback :
    gemini_call (fun _ => Except.ok
      { candidates := some [], asString := "<MalformedResponse>" }) "prompt" =
      Except.ok "<MalformedResponse>" := rfl

/-- C5 amended: an exception raised by the TextGenerator API call
propagates out of `gemini_call` uncaught (no branch catches it), aborting
the run; but a response lacking candidates is not propagated as a failure —
`gemini_call` falls back to returning `str(response)`. -/
theorem gemini_call_failure_semantics :
    (∀ (api : String → Except String GenResponse) (prompt e : String),
      api prompt = Except.error e → gemini_call api prompt = Except.error e) ∧
    (∀ (r : GenResponse) (prompt : String),
      r.candidates = Option.none ∨ r.candidates = some [] →
      ∀ api : String → Except String GenResponse, api prompt = Except.ok r →
      gemini_call api prompt = Except.ok r.asString) := by
  constructor
  · intro api prompt e h
    simp [gemini_call, h]
  · intro r prompt hr api h
    rcases hr with hr | hr <;> simp [gemini_call, h, hr]

/-- C5 witness: a concrete raising API call propagates its error out of
`gemini_call`. -/
theorem gemini_call_failure_semantics_witness :
    gemini_call (fun _ => Except.error "NetworkError") "p" =
      Except.error "NetworkError" :=
  gemini_call_failure_semantics.1 (fun _ => Except.error "NetworkError") "p"
    "NetworkError" rfl

end JsonAgent
